import Mathlib

/-
Verification of the task intake and dispatch core of the docker-gemini-cli
autonomous agent (src/autonomous_agent.py, src/task_processor.py,
src/gemini_client.py) against its natural-language specification.

Modelling conventions:
* JSON values are modelled by `JVal`; JSON numbers are modelled as integers
  (no claim depends on non-integral numerics).
* Python dicts are association lists with first-match lookup; keys are unique
  in every dict the program builds, so first-match lookup agrees with dict
  semantics.
* A Python function that can raise is modelled in `Except String α`, the
  error carrying the exception message; a `try/except` block is a `match` on
  that value.  Exact exception-message texts are abbreviated where the code
  only ever passes them through `str(e)`.
* The remote Gemini API call (`model.generate_content`) is an oracle
  `String → Nat → Except String GenResponse`: for a given full prompt and
  attempt index it either returns a response object or raises.
* The filesystem is modelled by explicit maps (association lists keyed by
  file name); `open(path).read()` for the analysis handler is a partial map
  `String → Option String`.
-/

namespace GeminiAgent

/-- JSON values as produced by `json.load`. -/
inductive JVal where
  | null
  | jbool (b : Bool)
  | jnum (n : Int)
  | jstr (s : String)
  | jarr (xs : List JVal)
  | jobj (kvs : List (String × JVal))

/-- First-match lookup in an association list (Python `d[k]` / `d.get(k)`). -/
def lookupKV {β : Type} (k : String) : List (String × β) → Option β
  | [] => none
  | (k0, v) :: rest => if k0 = k then some v else lookupKV k rest

/-- Python `d[k] = v`: replace the binding if the key exists, else append. -/
def upsertKV {β : Type} (k : String) (v : β) : List (String × β) → List (String × β)
  | [] => [(k, v)]
  | (k0, v0) :: rest => if k0 = k then (k0, v) :: rest else (k0, v0) :: upsertKV k v rest

/-- Remove the binding for a key (used to model renaming a file away). -/
def eraseKV {β : Type} (k : String) : List (String × β) → List (String × β)
  | [] => []
  | (k0, v0) :: rest => if k0 = k then rest else (k0, v0) :: eraseKV k rest

/-- Python `d[k]`, raising `KeyError` when the key is absent. -/
def dict_get_item (kvs : List (String × JVal)) (k : String) : Except String JVal :=
  match lookupKV k kvs with
  | some v => .ok v
  | none => .error ("KeyError: " ++ k)

/-- Python truthiness of a JSON value (`if x:`). -/
def pyTruthy : JVal → Bool
  | .null => false
  | .jbool b => b
  | .jnum n => decide (n ≠ 0)
  | .jstr s => decide (s ≠ "")
  | .jarr xs => !xs.isEmpty
  | .jobj kvs => !kvs.isEmpty

mutual
/-- Python `repr` of a JSON value (rendering used for elements inside
containers).  String quoting and dict punctuation are rendered plainly; no
claim depends on the exact rendering of containers. -/
def pyRepr : JVal → String
  | .null => "None"
  | .jbool true => "True"
  | .jbool false => "False"
  | .jnum n => toString n
  | .jstr s => s
  | .jarr xs => "[" ++ pyReprList xs ++ "]"
  | .jobj kvs => "\x7b" ++ pyReprPairs kvs ++ "\x7d"

/-- Comma-separated `repr` of list elements. -/
def pyReprList : List JVal → String
  | [] => ""
  | [x] => pyRepr x
  | x :: rest => pyRepr x ++ ", " ++ pyReprList rest

/-- Comma-separated `repr` of dict entries. -/
def pyReprPairs : List (String × JVal) → String
  | [] => ""
  | [(k, v)] => k ++ ": " ++ pyRepr v
  | (k, v) :: rest => k ++ ": " ++ pyRepr v ++ ", " ++ pyReprPairs rest
end

/-- Python `str` of a JSON value, as interpolated by an f-string. -/
def pyStr : JVal → String
  | .jstr s => s
  | v => pyRepr v

/-- One safety rating attached to a Gemini response candidate. -/
structure SafetyRating where
  category : String
  probability : String
  deriving DecidableEq

/-- One candidate of a Gemini response. -/
structure GenCandidate where
  finish_reason : String
  safety_ratings : List SafetyRating
  deriving DecidableEq

/-- The response object returned by a successful `model.generate_content`. -/
structure GenResponse where
  text : String
  candidates : List GenCandidate
  deriving DecidableEq

/-- The Gemini client as visible to handlers: the configured model name, the
remote call as a per-attempt oracle, and the readable file store backing
`analyze_file`'s `open`. -/
structure Gemini where
  model_name : String
  oracle : String → Nat → Except String GenResponse
  fs : String → Option String

/-- The fixed system prompt of `GeminiClient._prepare_prompt`. -/
def system_prompt : String :=
  "You are an autonomous AI agent running in a Docker container.\nYour role is to complete tasks efficiently and accurately. You have access to:\n- File system operations in /app/data/\n- Various data processing capabilities\n- The ability to generate reports and analysis\n\nAlways provide detailed, actionable responses. When working with files or data,\nbe explicit about your actions and results."

/-- `GeminiClient._format_context`: one `- key: value` line per entry, list and
dict values truncated to 200 characters of their `str` rendering. -/
def format_context (context : List (String × JVal)) : String :=
  "\n".intercalate (context.map fun kv =>
    match kv with
    | (k, .jarr xs) => "- " ++ k ++ ": " ++ (pyStr (.jarr xs)).take 200 ++ "..."
    | (k, .jobj kvs) => "- " ++ k ++ ": " ++ (pyStr (.jobj kvs)).take 200 ++ "..."
    | (k, v) => "- " ++ k ++ ": " ++ pyStr v)

/-- `GeminiClient._prepare_prompt`: system prompt, optional context section
(skipped for a falsy — absent or empty — context), then the task line. -/
def prepare_prompt (prompt : JVal) (context : Option (List (String × JVal))) : String :=
  let context_section :=
    match context with
    | some c => if c.isEmpty then "" else "\nContext:\n" ++ format_context c ++ "\n"
    | none => ""
  system_prompt ++ context_section ++ "\nTask: " ++ pyStr prompt

/-- `GeminiClient._extract_safety_ratings`: ratings of the first candidate,
empty when there is no candidate. -/
def extract_safety_ratings (r : GenResponse) : List JVal :=
  match r.candidates with
  | [] => []
  | c :: _ =>
    c.safety_ratings.map fun sr =>
      .jobj [("category", .jstr sr.category), ("probability", .jstr sr.probability)]

/-- One execution of the body of `GeminiClient.generate_response` at a given
attempt index.  The whole body sits inside `try/except Exception`, so a single
attempt always returns normally: a success envelope when the remote call
returns, and `{success: false, error, model}` when it raises. -/
def generate_attempt (g : Gemini) (prompt : JVal)
    (context : Option (List (String × JVal))) (attempt : Nat) : JVal :=
  match g.oracle (prepare_prompt prompt context) attempt with
  | .ok r =>
    .jobj [("success", .jbool true),
           ("response", .jstr r.text),
           ("model", .jstr g.model_name),
           ("finish_reason",
             match r.candidates with
             | [] => .null
             | c :: _ => .jstr c.finish_reason),
           ("safety_ratings", .jarr (extract_safety_ratings r))]
  | .error e =>
    .jobj [("success", .jbool false), ("error", .jstr e), ("model", .jstr g.model_name)]

/-- The tenacity `retry(stop=stop_after_attempt(3), ...)` wrapper: run the
wrapped call; if it raises and retries remain, run it again at the next
attempt index, otherwise re-raise.  (The wait_exponential delays are real time
and not modelled; they do not affect the returned value.) -/
def tenacity_retry (f : Nat → Except String JVal) : Nat → Nat → Except String JVal
  | attempt, fuel =>
    match f attempt, fuel with
    | .ok v, _ => .ok v
    | .error e, 0 => .error e
    | .error _, fuel + 1 => tenacity_retry f (attempt + 1) fuel

/-- `GeminiClient.generate_response` as its callers see it: the retry wrapper
around the attempt body, with an attempt budget of 3 (2 retries after the
first attempt). -/
def generate_response (g : Gemini) (prompt : JVal)
    (context : Option (List (String × JVal))) : Except String JVal :=
  tenacity_retry (fun attempt => .ok (generate_attempt g prompt context attempt)) 0 2

/-- `open(file_path, "r").read()`: succeeds on a string path naming an
existing file, raises otherwise. -/
def read_text_file (fs : String → Option String) (file_path : JVal) : Except String String :=
  match file_path with
  | .jstr s =>
    match fs s with
    | some content => .ok content
    | none => .error ("No such file or directory: " ++ s)
  | _ => .error "invalid file path"

/-- The context dict `analyze_file` attaches to its prompt. -/
def file_analysis_context (file_path analysis_type : JVal) (content : String) :
    List (String × JVal) :=
  [("task_type", JVal.jstr "file_analysis"),
   ("analysis_type", analysis_type),
   ("file_path", file_path),
   ("content_length", JVal.jnum content.length)]

/-- The f-string prompt `analyze_file` builds (content truncated to 2000
characters). -/
def file_analysis_prompt (file_path analysis_type : JVal) (content : String) : String :=
  "\n            File Analysis Task (" ++ pyStr analysis_type ++ "):\n\n            File: "
    ++ pyStr file_path ++ "\n            Content:\n            " ++ content.take 2000
    ++ "...  # Truncate for API limits\n\n            Please provide a comprehensive analysis including:\n            1. Content summary\n            2. Key insights\n            3. Data patterns\n            4. Recommendations\n            "

/-- `GeminiClient.analyze_file`: read the file, build the analysis prompt and
context, and delegate to `generate_response`; the whole body is inside
`try/except`, which converts any raise into `{success: false, error}`.  It
therefore always returns normally. -/
def analyze_file (g : Gemini) (file_path : JVal) (analysis_type : JVal) : JVal :=
  match read_text_file g.fs file_path with
  | .error e =>
    .jobj [("success", .jbool false), ("error", .jstr ("Failed to analyze file: " ++ e))]
  | .ok content =>
    match generate_response g (.jstr (file_analysis_prompt file_path analysis_type content))
        (some (file_analysis_context file_path analysis_type content)) with
    | .ok v => v
    | .error e =>
      .jobj [("success", .jbool false), ("error", .jstr ("Failed to analyze file: " ++ e))]

/-- The context dict `process_data_task` attaches to its prompt. -/
def data_processing_context (file_names : List String) : List (String × JVal) :=
  [("task_type", JVal.jstr "data_processing"),
   ("available_files", JVal.jstr (", ".intercalate file_names)),
   ("file_count", JVal.jnum file_names.length)]

/-- The f-string prompt `process_data_task` builds. -/
def data_processing_prompt (task_description : JVal) (file_names : List String) : String :=
  "\n        Data Processing Task: " ++ pyStr task_description
    ++ "\n\n        Available data files: " ++ ", ".intercalate file_names
    ++ "\n\n        Please provide:\n        1. Analysis approach\n        2. Expected insights\n        3. Processing steps\n        4. Output format recommendations\n        "

/-- `GeminiClient.process_data_task`: build the data-processing prompt and
context from the task description and the available file names, then delegate
to `generate_response` (no local exception handling). -/
def process_data_task (g : Gemini) (task_description : JVal)
    (file_names : List String) : Except String JVal :=
  generate_response g (.jstr (data_processing_prompt task_description file_names))
    (some (data_processing_context file_names))

/-- The four handlers registered in `TaskProcessor.task_handlers`. -/
inductive HandlerTag where
  | analysis
  | data_processing
  | file_analysis
  | general
  deriving DecidableEq

/-- `self.task_handlers.get(task_type, self._handle_general_task)`.  A Python
dict lookup hashes its key first: an unhashable key (list or dict) raises
`TypeError` before the default can apply; any other missing key falls back to
the general handler. -/
def task_handlers_get (task_type : JVal) : Except String HandlerTag :=
  match task_type with
  | .jarr _ => .error "unhashable type: list"
  | .jobj _ => .error "unhashable type: dict"
  | .jstr s =>
    if s = "analysis" then .ok .analysis
    else if s = "data_processing" then .ok .data_processing
    else if s = "file_analysis" then .ok .file_analysis
    else .ok .general
  | _ => .ok .general

/-- `TaskProcessor._handle_analysis_task`: prompt from `task_data["task"]`
(KeyError when absent), context with `priority` (default "normal") and
`deadline` (default None). -/
def handle_analysis_task (g : Gemini) (task_data : List (String × JVal)) :
    Except String JVal :=
  match dict_get_item task_data "task" with
  | .error e => .error e
  | .ok task =>
    generate_response g (.jstr ("Analysis Task: " ++ pyStr task))
      (some [("task_type", JVal.jstr "analysis"),
             ("priority", (lookupKV "priority" task_data).getD (.jstr "normal")),
             ("deadline", (lookupKV "deadline" task_data).getD .null)])

/-- `TaskProcessor._handle_data_processing_task`: the names of the regular
files currently under `/app/data/input` (the glob plus `is_file` filter is
modelled by the `input_listing` argument) are passed with the task description
to `process_data_task`. -/
def handle_data_processing_task (g : Gemini) (input_listing : List String)
    (task_data : List (String × JVal)) : Except String JVal :=
  match dict_get_item task_data "task" with
  | .error e => .error e
  | .ok task => process_data_task g task input_listing

/-- `TaskProcessor._handle_file_analysis_task`: a truthy `file_path` delegates
to `analyze_file` with `analysis_type` (default "general"); a falsy one
(absent, None, empty string, ...) returns the local validation error without
touching the client. -/
def handle_file_analysis_task (g : Gemini) (task_data : List (String × JVal)) :
    Except String JVal :=
  let file_path := (lookupKV "file_path" task_data).getD .null
  let analysis_type := (lookupKV "analysis_type" task_data).getD (.jstr "general")
  if pyTruthy file_path then
    .ok (analyze_file g file_path analysis_type)
  else
    .ok (.jobj [("success", .jbool false),
                ("error", .jstr "No file path specified for file analysis task")])

/-- `TaskProcessor._handle_general_task`: `task_data["task"]` as the bare
prompt, no context. -/
def handle_general_task (g : Gemini) (task_data : List (String × JVal)) :
    Except String JVal :=
  match dict_get_item task_data "task" with
  | .error e => .error e
  | .ok task => generate_response g task none

/-- The `try` block of `TaskProcessor.execute_task`: pick the handler for the
task type (default "general") and run it. -/
def execute_task_body (g : Gemini) (input_listing : List String)
    (task_data : List (String × JVal)) : Except String JVal :=
  match task_handlers_get ((lookupKV "type" task_data).getD (.jstr "general")) with
  | .error e => .error e
  | .ok .analysis => handle_analysis_task g task_data
  | .ok .data_processing => handle_data_processing_task g input_listing task_data
  | .ok .file_analysis => handle_file_analysis_task g task_data
  | .ok .general => handle_general_task g task_data

/-- `TaskProcessor.execute_task`: the `try` body with its
`except Exception` clause, which converts any raise into
`{success: false, error: str(e), task_id: task_data.get("id")}`. -/
def execute_task (g : Gemini) (input_listing : List String)
    (task_data : List (String × JVal)) : JVal :=
  match execute_task_body g input_listing task_data with
  | .ok result => result
  | .error e =>
    .jobj [("success", .jbool false), ("error", .jstr e),
           ("task_id", (lookupKV "id" task_data).getD .null)]

/-- The agent-visible filesystem: the `input/` directory maps each file name
to its raw content, recorded as `some j` when the content is valid JSON
parsing to `j` and `none` when `json.load` would fail; `output/` holds written
result envelopes; `processed/` holds moved originals. -/
structure AgentFS where
  input : List (String × Option JVal)
  output : List (String × JVal)
  processed : List (String × Option JVal)

/-- Python `field in j` (membership test of `_validate_task_data`): key
membership for a dict, element membership for a list, substring test for a
string, `TypeError` otherwise.  (The substring test is exact for the non-empty
needles used here.) -/
def py_contains (j : JVal) (field : String) : Except String Bool :=
  match j with
  | .jobj kvs => .ok (lookupKV field kvs).isSome
  | .jarr xs =>
    .ok (xs.any fun x =>
      match x with
      | .jstr s => decide (s = field)
      | _ => false)
  | .jstr s => .ok (decide ((s.splitOn field).length ≥ 2))
  | _ => .error "argument is not iterable"

/-- `AutonomousAgent._validate_task_data`: all of `id`, `task`, `type` are
members of the parsed value. -/
def validate_task_data (j : JVal) : Except String Bool :=
  match py_contains j "id", py_contains j "task", py_contains j "type" with
  | .ok a, .ok b, .ok c => .ok (a && b && c)
  | .error e, _, _ => .error e
  | _, .error e, _ => .error e
  | _, _, .error e => .error e

/-- `result.get("success")`: `.get` with default None on a dict, an
`AttributeError` on anything else. -/
def jval_get (j : JVal) (k : String) : Except String JVal :=
  match j with
  | .jobj kvs => .ok ((lookupKV k kvs).getD .null)
  | _ => .error "AttributeError: get"

/-- The `result_data` dict built by `_save_task_result` (status "completed"
exactly when the result's `success` value is truthy). -/
def result_envelope (now : String) (task_data : List (String × JVal))
    (result idv succ : JVal) : JVal :=
  .jobj [("task_id", idv),
         ("original_task", .jobj task_data),
         ("result", result),
         ("timestamp", .jstr now),
         ("status", .jstr (if pyTruthy succ then "completed" else "failed"))]

/-- `AutonomousAgent._save_task_result`: build the result envelope and write
it to `output/{id}_result.json`.  `write_ok` models whether the write raises
(a raise is modelled as leaving `output/` unchanged); `now` is the
`datetime.utcnow().isoformat()` timestamp. -/
def save_task_result (write_ok : Bool) (now : String) (task_data : List (String × JVal))
    (result : JVal) (fs : AgentFS) : Except String AgentFS :=
  match dict_get_item task_data "id", jval_get result "success" with
  | .ok idv, .ok succ =>
    if write_ok then
      .ok { fs with output := upsertKV (pyStr idv ++ "_result.json") (result_envelope now task_data result idv succ) fs.output }
    else
      .error "OSError: write failed"
  | .error e, _ => .error e
  | _, .error e => .error e

/-- `AutonomousAgent._move_processed_file`: rename the source file from
`input/` to `processed/` (raises when the source is gone). -/
def move_processed_file (fs : AgentFS) (path : String) : Except String AgentFS :=
  match lookupKV path fs.input with
  | none => .error ("FileNotFoundError: " ++ path)
  | some content =>
    .ok { fs with input := eraseKV path fs.input,
                  processed := upsertKV path content fs.processed }

/-- `AutonomousAgent.process_task_file`: open and parse the file, validate,
dispatch through `execute_task` (abstracted as `execF`), save the result, move
the source; every raise across those steps is caught by the surrounding
`try/except`, which leaves the filesystem as the failed step left it.  File
names stand for the full `input/` paths.  When the parsed value passes
validation without being a dict (possible for a list containing the three
field names), `execute_task` raises `AttributeError` from both its `try` and
`except` blocks, which propagates to the outer handler here. -/
def process_task_file (execF : List (String × JVal) → JVal) (write_ok : Bool)
    (now : String) (fs : AgentFS) (path : String) : AgentFS :=
  match lookupKV path fs.input with
  | none => fs                -- open() raised, caught by the outer except
  | some none => fs           -- json.load raised, caught
  | some (some j) =>
    match validate_task_data j with
    | .error _ => fs          -- the membership test raised TypeError, caught
    | .ok false => fs         -- validation failed: log and return
    | .ok true =>
      match j with
      | .jobj task_data =>
        match save_task_result write_ok now task_data (execF task_data) fs with
        | .error _ => fs      -- the write raised before the output appeared
        | .ok fs1 =>
          match move_processed_file fs1 path with
          | .error _ => fs1   -- the rename raised after the write, caught
          | .ok fs2 => fs2
      | _ => fs               -- execute_task raised from its except clause, caught

/-- The dispatcher invocations `process_task_file` performs on a path: exactly
one (with the parsed value) when the file parses and passes validation, none
otherwise.  This does not depend on the handler results or on the write
outcome, which both come after the dispatch. -/
def task_file_dispatch (fs : AgentFS) (path : String) : List JVal :=
  match lookupKV path fs.input with
  | some (some j) =>
    match validate_task_data j with
    | .ok true => [j]
    | _ => []
  | _ => []

/-- `AutonomousAgent._process_pending_tasks`: `while self.pending_tasks:`
pop the head and process it (processing one file is abstracted as `procF`). -/
def process_pending_tasks (procF : AgentFS → String → AgentFS) :
    List String → AgentFS → AgentFS
  | [], fs => fs
  | path :: rest, fs => process_pending_tasks procF rest (procF fs path)

/-- The observable intermediate states of the drain loop: the remaining
queue, the entry popped and currently being processed (if any), and the
filesystem. -/
structure DrainState where
  pending_tasks : List String
  current : Option String
  fs : AgentFS

/-- The `pop(0)` step of `_process_pending_tasks`: the head entry leaves the
queue and becomes the entry being processed; the filesystem is untouched. -/
def drain_pop (s : DrainState) : DrainState :=
  match s.pending_tasks with
  | [] => s
  | path :: rest => { pending_tasks := rest, current := some path, fs := s.fs }

/-- Completion of the awaited `process_task_file` call on the popped entry. -/
def drain_complete (procF : AgentFS → String → AgentFS) (s : DrainState) : DrainState :=
  match s.current with
  | none => s
  | some path => { pending_tasks := s.pending_tasks, current := none, fs := procF s.fs path }

/-- The watcher-to-loop bridge state: whether `self.loop` is set and running,
the coroutines injected into the running loop by
`asyncio.run_coroutine_threadsafe` (as the paths they will process), the
`pending_tasks` fallback list, and the filesystem. -/
structure AgentSched where
  loop_running : Bool
  scheduled : List String
  pending_tasks : List String
  fs : AgentFS

/-- `AutonomousAgent.schedule_task_processing`: with a running loop, inject a
`process_task_file(file_path)` coroutine into it; otherwise append the path to
the pending list (and log a warning).  No processing happens inside the
call. -/
def schedule_task_processing (a : AgentSched) (file_path : String) : AgentSched :=
  if a.loop_running then
    { a with scheduled := a.scheduled ++ [file_path] }
  else
    { a with pending_tasks := a.pending_tasks ++ [file_path] }

/-- Digit test for a character list. -/
def digits_only : List Char → Bool
  | [] => true
  | c :: rest => c.isDigit && digits_only rest

/-- Scan of a decimal literal after the optional sign: digits with at most
one dot and at least one digit overall (`seen` records whether a digit
occurred before the current position). -/
def float_scan : List Char → Bool → Bool
  | [], seen => seen
  | c :: rest, seen =>
    if c = '.' then (seen || !rest.isEmpty) && digits_only rest
    else c.isDigit && float_scan rest true

/-- Strip an optional leading sign. -/
def drop_sign : List Char → List Char
  | '+' :: rest => rest
  | '-' :: rest => rest
  | l => l

/-- Whether Python `float(s)` succeeds on the string, for the plain decimal
literals exercised here (optional sign, digits with at most one dot; exotic
forms such as exponents or inf are not used by any claim). -/
def float_ok (s : String) : Bool :=
  float_scan (drop_sign s.toList) false

/-- Whether Python `int(s)` succeeds on the string (same scope note as
`float_ok`). -/
def int_ok (s : String) : Bool :=
  !(drop_sign s.toList).isEmpty && digits_only (drop_sign s.toList)

/-- `os.getenv(k, d)`. -/
def env_get (env : String → Option String) (k : String) (d : String) : String :=
  (env k).getD d

/-- The state a successfully constructed `GeminiClient` holds (the numeric
generation parameters are kept as their raw environment strings; only whether
they parse matters to any claim). -/
structure GeminiConfig where
  api_key : String
  model_name : String
  temperature : String
  top_p : String
  top_k : String
  max_output_tokens : String
  deriving DecidableEq

/-- `GeminiClient.__init__` as a function of the process environment: raise
`ValueError` when `GEMINI_API_KEY` is unset or empty (falsy), otherwise parse
the generation parameters, each raising when non-numeric.  `os.getenv`
returning `None` and the empty string are both falsy, so both are modelled by
the empty-string default.  `genai.configure` and the `GenerativeModel`
constructor perform no remote call and are modelled as non-failing. -/
def gemini_client_init (env : String → Option String) : Except String GeminiConfig :=
  if (env "GEMINI_API_KEY").getD "" = "" then
    .error "GEMINI_API_KEY environment variable is required"
  else if !float_ok (env_get env "GEMINI_TEMPERATURE" "0.7") then
    .error "could not convert string to float: GEMINI_TEMPERATURE"
  else if !float_ok (env_get env "GEMINI_TOP_P" "0.8") then
    .error "could not convert string to float: GEMINI_TOP_P"
  else if !int_ok (env_get env "GEMINI_TOP_K" "40") then
    .error "invalid literal for int: GEMINI_TOP_K"
  else if !int_ok (env_get env "GEMINI_MAX_TOKENS" "2048") then
    .error "invalid literal for int: GEMINI_MAX_TOKENS"
  else
    .ok { api_key := (env "GEMINI_API_KEY").getD "",
          model_name := env_get env "GEMINI_MODEL" "gemini-2.0-flash-lite",
          temperature := env_get env "GEMINI_TEMPERATURE" "0.7",
          top_p := env_get env "GEMINI_TOP_P" "0.8",
          top_k := env_get env "GEMINI_TOP_K" "40",
          max_output_tokens := env_get env "GEMINI_MAX_TOKENS" "2048" }

/-- `AutonomousAgent.__init__` up to the point the agent can start: a raise
from the `GeminiClient` constructor propagates and prevents startup.  (The
`ConfigManager` constructed just before it also rejects a missing key via its
pydantic model; it is not modelled separately since the client constructor
alone already decides the claims.) -/
def autonomous_agent_init (env : String → Option String) : Except String AgentSched :=
  match gemini_client_init env with
  | .error e => .error e
  | .ok _ =>
    .ok { loop_running := false, scheduled := [], pending_tasks := [],
          fs := { input := [], output := [], processed := [] } }

/-- Field lookup on a JSON object (specification-side accessor for stating
properties of result dicts). -/
def jlookup (j : JVal) (k : String) : Option JVal :=
  match j with
  | .jobj kvs => lookupKV k kvs
  | _ => none

/-- A concrete client whose remote call always succeeds (for concrete
instantiations). -/
def ok_client : Gemini :=
  { model_name := "gemini-2.0-flash-lite",
    oracle := fun _ _ => .ok { text := "ok", candidates := [] },
    fs := fun _ => none }

/-- The empty agent filesystem (for concrete instantiations). -/
def empty_fs : AgentFS := { input := [], output := [], processed := [] }

/-- A bridge state with a running loop and empty buffers (for concrete
instantiations). -/
def sched_running : AgentSched :=
  { loop_running := true, scheduled := [], pending_tasks := [], fs := empty_fs }

/-- A client whose remote call raises on the first attempt and would succeed
on every later attempt (models a transient failure of `generate_content`). -/
def transient_client : Gemini :=
  { model_name := "m",
    oracle := fun _ attempt =>
      if attempt = 0 then .error "transient boom"
      else .ok { text := "recovered", candidates := [] },
    fs := fun _ => none }

/-- An environment with the API key present but a non-numeric temperature
value. -/
def env_bad_temperature (k : String) : Option String :=
  if k = "GEMINI_API_KEY" then some "secret-key"
  else if k = "GEMINI_TEMPERATURE" then some "abc"
  else none

/-- An environment holding only the API key. -/
def env_key_only (k : String) : Option String :=
  if k = "GEMINI_API_KEY" then some "secret-key" else none

/-- Whether a JSON value is hashable in Python (lists and dicts are not;
`dict.get` raises `TypeError` on an unhashable key). -/
def is_hashable : JVal → Bool
  | .jarr _ => false
  | .jobj _ => false
  | _ => true

/-- Whether a JSON value is one of the four registered handler keys. -/
def is_known_type : JVal → Bool
  | .jstr s =>
    decide (s = "analysis") || decide (s = "data_processing")
      || decide (s = "file_analysis") || decide (s = "general")
  | _ => false

/-- A descriptor whose `type` is an (unhashable) empty list. -/
def td_unhashable : List (String × JVal) :=
  [("id", .jstr "t"), ("task", .jstr "x"), ("type", .jarr [])]

/-- A client that can read the empty-string path and whose remote call always
succeeds. -/
def empty_path_client : Gemini :=
  { model_name := "m",
    oracle := fun _ _ => .ok { text := "ok", candidates := [] },
    fs := fun p => if p = "" then some "data" else none }

/-- A `file_analysis` descriptor whose `file_path` is present but empty. -/
def td_empty_path : List (String × JVal) :=
  [("id", .jstr "t"), ("task", .jstr "x"), ("type", .jstr "file_analysis"),
   ("file_path", .jstr "")]

/-- An input directory holding one unparseable file. -/
def malformed_fs : AgentFS :=
  { input := [("bad.json", none)], output := [], processed := [] }

/-- The spec's example well-formed task file, in `input/t1.json`. -/
def wf_task : List (String × JVal) :=
  [("id", .jstr "t1"), ("task", .jstr "hello"), ("type", .jstr "general")]

/-- An input directory holding exactly the spec's example task file. -/
def wf_fs : AgentFS :=
  { input := [("t1.json", some (.jobj wf_task))], output := [], processed := [] }

/-- The body of `generate_response` catches every exception, so the tenacity
wrapper sees no raise and settles on the first attempt: the returned value is
the first attempt's outcome, whatever the later attempts would do. -/
theorem generate_response_first_attempt (g : Gemini) (prompt : JVal)
    (context : Option (List (String × JVal))) :
    generate_response g prompt context = .ok (generate_attempt g prompt context 0) := rfl

/-- Every single attempt of `generate_response` returns a dict carrying a
boolean `success` field. -/
theorem generate_attempt_success_bool (g : Gemini) (prompt : JVal)
    (context : Option (List (String × JVal))) (attempt : Nat) :
    ∃ b, jlookup (generate_attempt g prompt context attempt) "success" = some (.jbool b) := by
  cases h : g.oracle (prepare_prompt prompt context) attempt with
  | ok r =>
    refine ⟨true, ?_⟩
    unfold generate_attempt
    rw [h]
    rfl
  | error e =>
    refine ⟨false, ?_⟩
    unfold generate_attempt
    rw [h]
    rfl

/-- `analyze_file` returns a dict carrying a boolean `success` field. -/
theorem analyze_file_success_bool (g : Gemini) (file_path analysis_type : JVal) :
    ∃ b, jlookup (analyze_file g file_path analysis_type) "success" = some (.jbool b) := by
  cases h : read_text_file g.fs file_path with
  | error e =>
    refine ⟨false, ?_⟩
    unfold analyze_file
    rw [h]
    rfl
  | ok content =>
    have heq : analyze_file g file_path analysis_type =
        generate_attempt g (.jstr (file_analysis_prompt file_path analysis_type content))
          (some (file_analysis_context file_path analysis_type content)) 0 := by
      unfold analyze_file
      simp only [h, generate_response_first_attempt]
    rw [heq]
    exact generate_attempt_success_bool g _ _ 0

/-- A normal return of `_handle_analysis_task` carries a boolean `success`. -/
theorem handle_analysis_task_ok_success (g : Gemini) (td : List (String × JVal)) (v : JVal)
    (h : handle_analysis_task g td = .ok v) :
    ∃ b, jlookup v "success" = some (.jbool b) := by
  unfold handle_analysis_task at h
  cases hg : dict_get_item td "task" with
  | error e =>
    simp only [hg] at h
    exact Except.noConfusion h
  | ok task =>
    simp only [hg, generate_response_first_attempt] at h
    obtain rfl : generate_attempt g _ _ 0 = v := Except.ok.inj h
    exact generate_attempt_success_bool g _ _ 0

/-- A normal return of `_handle_data_processing_task` carries a boolean
`success`. -/
theorem handle_data_processing_task_ok_success (g : Gemini) (listing : List String)
    (td : List (String × JVal)) (v : JVal)
    (h : handle_data_processing_task g listing td = .ok v) :
    ∃ b, jlookup v "success" = some (.jbool b) := by
  unfold handle_data_processing_task process_data_task at h
  cases hg : dict_get_item td "task" with
  | error e =>
    simp only [hg] at h
    exact Except.noConfusion h
  | ok task =>
    simp only [hg, generate_response_first_attempt] at h
    obtain rfl : generate_attempt g _ _ 0 = v := Except.ok.inj h
    exact generate_attempt_success_bool g _ _ 0

/-- A normal return of `_handle_file_analysis_task` carries a boolean
`success`. -/
theorem handle_file_analysis_task_ok_success (g : Gemini) (td : List (String × JVal)) (v : JVal)
    (h : handle_file_analysis_task g td = .ok v) :
    ∃ b, jlookup v "success" = some (.jbool b) := by
  unfold handle_file_analysis_task at h
  by_cases hp : pyTruthy ((lookupKV "file_path" td).getD .null) = true
  · rw [if_pos hp] at h
    obtain rfl : analyze_file g _ _ = v := Except.ok.inj h
    exact analyze_file_success_bool g _ _
  · rw [if_neg hp] at h
    obtain rfl := Except.ok.inj h
    exact ⟨false, rfl⟩

/-- A normal return of `_handle_general_task` carries a boolean `success`. -/
theorem handle_general_task_ok_success (g : Gemini) (td : List (String × JVal)) (v : JVal)
    (h : handle_general_task g td = .ok v) :
    ∃ b, jlookup v "success" = some (.jbool b) := by
  unfold handle_general_task at h
  cases hg : dict_get_item td "task" with
  | error e =>
    simp only [hg] at h
    exact Except.noConfusion h
  | ok task =>
    simp only [hg, generate_response_first_attempt] at h
    obtain rfl : generate_attempt g _ _ 0 = v := Except.ok.inj h
    exact generate_attempt_success_bool g _ _ 0

/-- Whichever handler the `try` body of `execute_task` reaches, a normal
return carries a boolean `success` field. -/
theorem execute_task_body_ok_success (g : Gemini) (listing : List String)
    (td : List (String × JVal)) (v : JVal)
    (h : execute_task_body g listing td = .ok v) :
    ∃ b, jlookup v "success" = some (.jbool b) := by
  unfold execute_task_body at h
  cases ht : task_handlers_get ((lookupKV "type" td).getD (.jstr "general")) with
  | error e =>
    simp only [ht] at h
    exact Except.noConfusion h
  | ok tag =>
    simp only [ht] at h
    cases tag with
    | analysis => exact handle_analysis_task_ok_success g td v h
    | data_processing => exact handle_data_processing_task_ok_success g listing td v h
    | file_analysis => exact handle_file_analysis_task_ok_success g td v h
    | general => exact handle_general_task_ok_success g td v h

/-- C1.  For every task descriptor (any JSON object), `execute_task` never
raises: its except-clause converts any exception of the `try` body into
`{success: false, error: str(e), task_id: task_data.get("id")}` (second
conjunct), and in all cases — normal handler return or caught exception — the
returned result carries a boolean `success` field (first conjunct).  Totality
over all clients, listings and descriptors is the modelled form of "never
raises an exception to its caller". -/
theorem execute_task_never_raises (g : Gemini) (listing : List String)
    (td : List (String × JVal)) :
    (∃ b, jlookup (execute_task g listing td) "success" = some (.jbool b)) ∧
    (∀ e, execute_task_body g listing td = .error e →
      execute_task g listing td =
        .jobj [("success", .jbool false), ("error", .jstr e),
               ("task_id", (lookupKV "id" td).getD .null)]) := by
  constructor
  · unfold execute_task
    cases h : execute_task_body g listing td with
    | ok v => exact execute_task_body_ok_success g listing td v h
    | error e => exact ⟨false, rfl⟩
  · intro e he
    unfold execute_task
    rw [he]

/-- Witness for C1: a descriptor whose `task` field is missing makes the
general handler raise `KeyError`, which `execute_task` converts into the
failure dict. -/
theorem execute_task_never_raises_witness :
    execute_task ok_client [] [("id", JVal.jstr "t1")] =
      .jobj [("success", .jbool false), ("error", .jstr "KeyError: task"),
             ("task_id", .jstr "t1")] :=
  (execute_task_never_raises ok_client [] [("id", JVal.jstr "t1")]).2 "KeyError: task" rfl

/-- Whether a key is bound depends only on the key sequence of an association
list, not on the values. -/
theorem lookupKV_isSome_of_keys_eq {β γ : Type} (k : String) :
    ∀ (l1 : List (String × β)) (l2 : List (String × γ)),
      l1.map Prod.fst = l2.map Prod.fst →
      (lookupKV k l1).isSome = (lookupKV k l2).isSome := by
  intro l1
  induction l1 with
  | nil =>
    intro l2 h
    cases l2 with
    | nil => rfl
    | cons q rest2 => simp at h
  | cons p rest ih =>
    intro l2 h
    cases l2 with
    | nil => simp at h
    | cons q rest2 =>
      obtain ⟨k1, v1⟩ := p
      obtain ⟨k2, v2⟩ := q
      simp at h
      obtain ⟨hk, hrest⟩ := h
      subst hk
      by_cases hkk : k1 = k
      · simp [lookupKV, hkk]
      · simp [lookupKV, hkk, ih rest2 hrest]

/-- C10.  `_validate_task_data` checks only the presence of the keys `id`,
`task` and `type`: on any JSON object it returns exactly the conjunction of
the three key-presence tests (first conjunct); its verdict depends only on the
key sequence, never on any value (second conjunct); and any object carrying
the three keys validates as true whatever the values (third conjunct). -/
theorem validate_checks_only_presence :
    (∀ kvs : List (String × JVal),
      validate_task_data (.jobj kvs) =
        .ok ((lookupKV "id" kvs).isSome && (lookupKV "task" kvs).isSome
              && (lookupKV "type" kvs).isSome)) ∧
    (∀ kvs kvs2 : List (String × JVal), kvs.map Prod.fst = kvs2.map Prod.fst →
      validate_task_data (.jobj kvs) = validate_task_data (.jobj kvs2)) ∧
    (∀ a b c : JVal, ∀ rest : List (String × JVal),
      validate_task_data (.jobj (("id", a) :: ("task", b) :: ("type", c) :: rest)) =
        .ok true) := by
  refine ⟨fun kvs => rfl, ?_, fun a b c rest => rfl⟩
  intro kvs kvs2 h
  show Except.ok _ = Except.ok _
  rw [lookupKV_isSome_of_keys_eq "id" kvs kvs2 h,
    lookupKV_isSome_of_keys_eq "task" kvs kvs2 h,
    lookupKV_isSome_of_keys_eq "type" kvs kvs2 h]

/-- Witness for C10: the same key sequence with entirely different values
(None, 0, False against three strings) validates identically, and presence of
the three keys suffices. -/
theorem validate_checks_only_presence_witness :
    validate_task_data (.jobj [("id", .null), ("task", .jnum 0), ("type", .jbool false)]) =
      validate_task_data (.jobj [("id", .jstr "a"), ("task", .jstr "b"), ("type", .jstr "c")]) ∧
    validate_task_data (.jobj [("id", .null), ("task", .jnum 0), ("type", .jbool false)]) =
      .ok true :=
  ⟨validate_checks_only_presence.2.1 _ _ rfl,
   validate_checks_only_presence.2.2 .null (.jnum 0) (.jbool false) []⟩

/-- C8.  `schedule_task_processing` never touches the filesystem (it does not
process the file synchronously) and never drops the path: with a running loop
the path is appended to the injected coroutines, otherwise it is appended to
the pending list. -/
theorem schedule_task_processing_no_drop (a : AgentSched) (file_path : String) :
    (schedule_task_processing a file_path).fs = a.fs ∧
    (a.loop_running = true →
      schedule_task_processing a file_path = { a with scheduled := a.scheduled ++ [file_path] }) ∧
    (a.loop_running = false →
      schedule_task_processing a file_path = { a with pending_tasks := a.pending_tasks ++ [file_path] }) := by
  by_cases h : a.loop_running
  · simp [schedule_task_processing, h]
  · simp [schedule_task_processing, h]

/-- Witness for C8: scheduling a path on a running loop injects exactly that
path as a coroutine and leaves the filesystem alone. -/
theorem schedule_task_processing_no_drop_witness :
    schedule_task_processing sched_running "t1.json" =
      { sched_running with scheduled := ["t1.json"] } :=
  (schedule_task_processing_no_drop sched_running "t1.json").2.1 rfl

/-- C7.  The `try/except` inside `generate_response` swallows every exception,
so the tenacity retry decorator (which fires only on a raise) never retries:
on a transient failure of the first attempt the call returns the failure dict
immediately, even though the second attempt (second conjunct) would have
succeeded — the code performs one attempt, not up to three. -/
theorem transient_failure_not_retried :
    generate_response transient_client (.jstr "p") none =
      .ok (.jobj [("success", .jbool false), ("error", .jstr "transient boom"),
                  ("model", .jstr "m")]) ∧
    transient_client.oracle (prepare_prompt (.jstr "p") none) 1 =
      .ok { text := "recovered", candidates := [] } :=
  ⟨rfl, rfl⟩

/-- C6 counterexample: from a queue holding one entry, the `pop(0)` of
`_process_pending_tasks` removes the entry from the queue while its
processing has not even begun (the filesystem is untouched and the entry is
merely in flight) — contradicting "an entry whose processing has not
completed is still present in the queue". -/
theorem queue_entry_removed_before_processing :
    (drain_pop { pending_tasks := ["t1.json"], current := none, fs := empty_fs }).pending_tasks = [] ∧
    (drain_pop { pending_tasks := ["t1.json"], current := none, fs := empty_fs }).current = some "t1.json" ∧
    (drain_pop { pending_tasks := ["t1.json"], current := none, fs := empty_fs }).fs = empty_fs :=
  ⟨rfl, rfl, rfl⟩

/-- C6 (amended).  The drain removes an entry from the pending queue at the
moment it starts processing it (pop-then-process), not after completion; each
popped entry is processed to completion before the next pop, and a full drain
processes exactly the queued entries, in FIFO order. -/
theorem pending_queue_pop_then_process (procF : AgentFS → String → AgentFS) :
    (∀ (path : String) (rest : List String) (fs : AgentFS),
      drain_pop { pending_tasks := path :: rest, current := none, fs := fs } =
        { pending_tasks := rest, current := some path, fs := fs }) ∧
    (∀ (path : String) (rest : List String) (fs : AgentFS),
      drain_complete procF (drain_pop { pending_tasks := path :: rest, current := none, fs := fs }) =
        { pending_tasks := rest, current := none, fs := procF fs path }) ∧
    (∀ (queue : List String) (fs : AgentFS),
      process_pending_tasks procF queue fs = queue.foldl procF fs) := by
  refine ⟨fun path rest fs => rfl, fun path rest fs => rfl, ?_⟩
  intro queue
  induction queue with
  | nil => intro fs; rfl
  | cons path rest ih => intro fs; simp [process_pending_tasks, List.foldl, ih]

/-- C9 counterexample: with `GEMINI_API_KEY` present, a non-numeric
`GEMINI_TEMPERATURE` still makes construction raise and prevents the agent
from starting — so the missing key is not the only thrown-fault path. -/
theorem missing_key_not_only_fatal :
    env_bad_temperature "GEMINI_API_KEY" = some "secret-key" ∧
    autonomous_agent_init env_bad_temperature =
      .error "could not convert string to float: GEMINI_TEMPERATURE" :=
  ⟨rfl, rfl⟩

/-- C9 (amended).  Constructing the client with `GEMINI_API_KEY` unset or
empty raises `ValueError` immediately — before any remote call, since the
constructor never consults the oracle (first conjunct); with the key present
and numeric parameters parseable, construction succeeds (second conjunct);
and any construction failure propagates out of the agent constructor and
prevents startup (third conjunct). -/
theorem gemini_client_init_fatal (env : String → Option String) :
    ((env "GEMINI_API_KEY").getD "" = "" →
      gemini_client_init env = .error "GEMINI_API_KEY environment variable is required") ∧
    ((env "GEMINI_API_KEY").getD "" ≠ "" →
      float_ok (env_get env "GEMINI_TEMPERATURE" "0.7") = true →
      float_ok (env_get env "GEMINI_TOP_P" "0.8") = true →
      int_ok (env_get env "GEMINI_TOP_K" "40") = true →
      int_ok (env_get env "GEMINI_MAX_TOKENS" "2048") = true →
      gemini_client_init env =
        .ok { api_key := (env "GEMINI_API_KEY").getD "",
              model_name := env_get env "GEMINI_MODEL" "gemini-2.0-flash-lite",
              temperature := env_get env "GEMINI_TEMPERATURE" "0.7",
              top_p := env_get env "GEMINI_TOP_P" "0.8",
              top_k := env_get env "GEMINI_TOP_K" "40",
              max_output_tokens := env_get env "GEMINI_MAX_TOKENS" "2048" }) ∧
    (∀ e, gemini_client_init env = .error e → autonomous_agent_init env = .error e) := by
  refine ⟨?_, ?_, ?_⟩
  · intro h
    unfold gemini_client_init
    rw [if_pos h]
  · intro h1 h2 h3 h4 h5
    unfold gemini_client_init
    rw [if_neg h1, h2, h3, h4, h5]
    rfl
  · intro e he
    unfold autonomous_agent_init
    rw [he]

/-- Witness for C9: with only the key set, all defaults parse and construction
succeeds; and the bad-temperature environment fails agent startup through the
propagation conjunct. -/
theorem gemini_client_init_fatal_witness :
    gemini_client_init env_key_only =
      .ok { api_key := "secret-key", model_name := "gemini-2.0-flash-lite",
            temperature := "0.7", top_p := "0.8", top_k := "40",
            max_output_tokens := "2048" } ∧
    autonomous_agent_init env_bad_temperature =
      .error "could not convert string to float: GEMINI_TEMPERATURE" :=
  ⟨(gemini_client_init_fatal env_key_only).2.1 (by decide) rfl rfl rfl rfl,
   (gemini_client_init_fatal env_bad_temperature).2.2 _ rfl⟩

/-- Updating one key leaves lookups of other keys unchanged. -/
theorem lookupKV_upsertKV_ne {β : Type} (k k2 : String) (v : β) (l : List (String × β))
    (h : k2 ≠ k) : lookupKV k (upsertKV k2 v l) = lookupKV k l := by
  induction l with
  | nil => simp [upsertKV, lookupKV, h]
  | cons p rest ih =>
    obtain ⟨k0, v0⟩ := p
    by_cases h0 : k0 = k2
    · subst h0
      simp [upsertKV, lookupKV, h]
    · by_cases h1 : k0 = k <;> simp [upsertKV, lookupKV, h0, h1, ih, Ne.symm h]

/-- Lookup after updating the same key yields the new value. -/
theorem lookupKV_upsertKV_self {β : Type} (k : String) (v : β) (l : List (String × β)) :
    lookupKV k (upsertKV k v l) = some v := by
  induction l with
  | nil => simp [upsertKV, lookupKV]
  | cons p rest ih =>
    obtain ⟨k0, v0⟩ := p
    by_cases h : k0 = k <;> simp [upsertKV, lookupKV, h, ih]

/-- A hashable type value that is none of the four registered keys falls back
to the general handler in the dispatch-table lookup. -/
theorem task_handlers_get_unknown (v : JVal) (hh : is_hashable v = true)
    (hk : is_known_type v = false) : task_handlers_get v = .ok .general := by
  cases v with
  | null => rfl
  | jbool b => rfl
  | jnum n => rfl
  | jarr xs => simp [is_hashable] at hh
  | jobj kvs => simp [is_hashable] at hh
  | jstr s =>
    simp only [is_known_type, Bool.or_eq_false_iff, decide_eq_false_iff_not] at hk
    obtain ⟨⟨⟨h1, h2⟩, h3⟩, h4⟩ := hk
    simp [task_handlers_get, h1, h2, h3]

/-- When the handler lookup lands on the general handler, `execute_task` is
that handler's result, with the except-clause conversion on a raise. -/
theorem execute_task_route_general (g : Gemini) (listing : List String)
    (td : List (String × JVal))
    (h : task_handlers_get ((lookupKV "type" td).getD (.jstr "general")) = .ok .general) :
    execute_task g listing td =
      match handle_general_task g td with
      | .ok r => r
      | .error e => .jobj [("success", .jbool false), ("error", .jstr e),
                           ("task_id", (lookupKV "id" td).getD .null)] := by
  unfold execute_task execute_task_body
  simp only [h]

/-- The general handler ignores every field except `task`, so updating `type`
does not change its behavior. -/
theorem handle_general_task_upsert_type (g : Gemini) (td : List (String × JVal)) (v : JVal) :
    handle_general_task g (upsertKV "type" v td) = handle_general_task g td := by
  unfold handle_general_task dict_get_item
  rw [lookupKV_upsertKV_ne "task" "type" v td (by decide)]

/-- C2 (amended).  A task whose `type` is absent, or present with a hashable
value (null, boolean, number, or a string other than the four known keys), is
routed to the general handler and produces exactly the same result as the
same descriptor with an explicit `type: "general"` (first conjunct).  An
unhashable `type` value — a JSON array or object — instead makes the dict
lookup raise `TypeError`, which the dispatcher converts to its catch-all
failure dict (second and third conjuncts), so such descriptors are not
routed to the general handler. -/
theorem execute_task_unknown_type_routes_general (g : Gemini) (listing : List String)
    (td : List (String × JVal)) :
    ((lookupKV "type" td = none ∨
      ∃ v, lookupKV "type" td = some v ∧ is_hashable v = true ∧ is_known_type v = false) →
      execute_task g listing td =
        execute_task g listing (upsertKV "type" (.jstr "general") td)) ∧
    (∀ xs, lookupKV "type" td = some (.jarr xs) →
      execute_task g listing td =
        .jobj [("success", .jbool false), ("error", .jstr "unhashable type: list"),
               ("task_id", (lookupKV "id" td).getD .null)]) ∧
    (∀ kvs, lookupKV "type" td = some (.jobj kvs) →
      execute_task g listing td =
        .jobj [("success", .jbool false), ("error", .jstr "unhashable type: dict"),
               ("task_id", (lookupKV "id" td).getD .null)]) := by
  refine ⟨?_, ?_, ?_⟩
  · intro h
    have hg1 : task_handlers_get ((lookupKV "type" td).getD (.jstr "general")) = .ok .general := by
      rcases h with h | ⟨v, hv, hh, hk⟩
      · rw [h]; rfl
      · rw [hv]; exact task_handlers_get_unknown v hh hk
    have hg2 : task_handlers_get
        ((lookupKV "type" (upsertKV "type" (.jstr "general") td)).getD (.jstr "general")) =
          .ok .general := by
      rw [lookupKV_upsertKV_self]; rfl
    rw [execute_task_route_general g listing td hg1,
      execute_task_route_general g listing _ hg2,
      handle_general_task_upsert_type g td (.jstr "general"),
      lookupKV_upsertKV_ne "id" "type" (.jstr "general") td (by decide)]
  · intro xs hx
    unfold execute_task execute_task_body
    simp only [hx, Option.getD_some, task_handlers_get]
  · intro kvs hx
    unfold execute_task execute_task_body
    simp only [hx, Option.getD_some, task_handlers_get]

/-- Witness for C2: a descriptor with `type: 42` (unknown, hashable) behaves
exactly like the explicit `type: "general"` variant. -/
theorem execute_task_unknown_type_routes_general_witness :
    execute_task ok_client [] [("id", .jstr "t"), ("task", .jstr "x"), ("type", .jnum 42)] =
      execute_task ok_client []
        (upsertKV "type" (.jstr "general")
          [("id", .jstr "t"), ("task", .jstr "x"), ("type", .jnum 42)]) :=
  (execute_task_unknown_type_routes_general ok_client [] _).1
    (Or.inr ⟨.jnum 42, rfl, rfl, rfl⟩)

/-- C2 counterexample: the claim as stated fails for an unhashable unknown
`type`.  With `type: []` the dispatcher returns its catch-all failure dict
(success false), while the same descriptor with `type: "general"` succeeds —
the two results differ, so the fallback is not "exactly the same result" for
every non-registered type value. -/
theorem unknown_type_not_always_general :
    jlookup (execute_task ok_client [] td_unhashable) "success" = some (.jbool false) ∧
    jlookup (execute_task ok_client [] (upsertKV "type" (.jstr "general") td_unhashable))
        "success" = some (.jbool true) ∧
    execute_task ok_client [] td_unhashable ≠
      execute_task ok_client [] (upsertKV "type" (.jstr "general") td_unhashable) := by
  refine ⟨rfl, rfl, ?_⟩
  intro h
  have h2 : (some (JVal.jbool false) : Option JVal) = some (.jbool true) := by
    calc (some (JVal.jbool false) : Option JVal)
        = jlookup (execute_task ok_client [] td_unhashable) "success" := rfl
      _ = jlookup (execute_task ok_client []
            (upsertKV "type" (.jstr "general") td_unhashable)) "success" := by rw [h]
      _ = some (.jbool true) := rfl
  simp at h2

/-- C3 (amended).  For a `file_analysis` task: a falsy `file_path` (absent, or
present but empty/None/false) produces the local validation error — a fixed
dict independent of the client, so no remote-client operation is consulted;
a truthy `file_path` delegates to `analyze_file` with `analysis_type`
defaulting to "general". -/
theorem execute_file_analysis_dispatch (g : Gemini) (listing : List String)
    (td : List (String × JVal))
    (htype : lookupKV "type" td = some (.jstr "file_analysis")) :
    (pyTruthy ((lookupKV "file_path" td).getD .null) = false →
      execute_task g listing td =
        .jobj [("success", .jbool false),
               ("error", .jstr "No file path specified for file analysis task")]) ∧
    (pyTruthy ((lookupKV "file_path" td).getD .null) = true →
      execute_task g listing td =
        analyze_file g ((lookupKV "file_path" td).getD .null)
          ((lookupKV "analysis_type" td).getD (.jstr "general"))) := by
  have hb : execute_task_body g listing td = handle_file_analysis_task g td := by
    unfold execute_task_body
    rw [htype]
    rfl
  constructor
  · intro hp
    unfold execute_task
    rw [hb]
    unfold handle_file_analysis_task
    simp [hp]
  · intro hp
    unfold execute_task
    rw [hb]
    unfold handle_file_analysis_task
    simp [hp]

/-- Witness for C3: a `file_analysis` descriptor with no `file_path` gets the
local validation error. -/
theorem execute_file_analysis_dispatch_witness :
    execute_task ok_client []
        [("id", .jstr "t"), ("task", .jstr "x"), ("type", .jstr "file_analysis")] =
      .jobj [("success", .jbool false),
             ("error", .jstr "No file path specified for file analysis task")] :=
  (execute_file_analysis_dispatch ok_client []
    [("id", .jstr "t"), ("task", .jstr "x"), ("type", .jstr "file_analysis")] rfl).1 rfl

/-- C3 counterexample: the claim's "when `file_path` is present it delegates"
fails for a present-but-empty path.  With `file_path: ""` (a readable path in
this model, and a client whose remote call succeeds), `execute_task` returns
the local validation error with success false, while the delegated
`analyze_file` call would have succeeded — so the present path was not
delegated. -/
theorem file_analysis_present_path_not_delegated :
    jlookup (execute_task empty_path_client [] td_empty_path) "success" =
      some (.jbool false) ∧
    execute_task empty_path_client [] td_empty_path =
      .jobj [("success", .jbool false),
             ("error", .jstr "No file path specified for file analysis task")] ∧
    jlookup (analyze_file empty_path_client (.jstr "") (.jstr "general")) "success" =
      some (.jbool true) ∧
    execute_task empty_path_client [] td_empty_path ≠
      analyze_file empty_path_client (.jstr "") (.jstr "general") := by
  refine ⟨rfl, rfl, rfl, ?_⟩
  intro h
  have h2 : (some (JVal.jbool false) : Option JVal) = some (.jbool true) := by
    calc (some (JVal.jbool false) : Option JVal)
        = jlookup (execute_task empty_path_client [] td_empty_path) "success" := rfl
      _ = jlookup (analyze_file empty_path_client (.jstr "") (.jstr "general"))
            "success" := by rw [h]
      _ = some (.jbool true) := rfl
  simp at h2

/-- C4.  A file that fails to parse, or parses to an object missing a required
field, is abandoned: the filesystem is unchanged (no output written, no file
moved) and the dispatcher is never invoked — for every dispatcher behavior and
write outcome. -/
theorem process_task_file_malformed (execF : List (String × JVal) → JVal)
    (write_ok : Bool) (now : String) (fs : AgentFS) (path : String)
    (h : lookupKV path fs.input = some none ∨
         ∃ td, lookupKV path fs.input = some (some (.jobj td)) ∧
               validate_task_data (.jobj td) = .ok false) :
    process_task_file execF write_ok now fs path = fs ∧
    task_file_dispatch fs path = [] := by
  rcases h with h | ⟨td, h, hv⟩
  · exact ⟨by simp only [process_task_file, h],
           by simp only [task_file_dispatch, h]⟩
  · exact ⟨by simp only [process_task_file, h, hv],
           by simp only [task_file_dispatch, h, hv]⟩

/-- Witness for C4: an unparseable `input/bad.json` is left exactly in place
and nothing is dispatched. -/
theorem process_task_file_malformed_witness :
    process_task_file (fun _ => .null) true "ts" malformed_fs "bad.json" = malformed_fs ∧
    task_file_dispatch malformed_fs "bad.json" = [] :=
  process_task_file_malformed (fun _ => .null) true "ts" malformed_fs "bad.json" (Or.inl rfl)

/-- C5.  A well-formed task file is processed in order: the result envelope —
whose `status` is "completed" exactly when the handler result's `success` is
truthy and "failed" otherwise (third conjunct) — is written to
`output/{id}_result.json`, and only then is the source renamed from `input/`
to `processed/` (first conjunct); when the write raises, the source is not
moved and stays in `input/` (second conjunct). -/
theorem process_task_file_wellformed (execF : List (String × JVal) → JVal)
    (write_ok : Bool) (now : String) (fs : AgentFS) (path : String)
    (td : List (String × JVal)) (idv succ : JVal)
    (hin : lookupKV path fs.input = some (some (.jobj td)))
    (hval : validate_task_data (.jobj td) = .ok true)
    (hid : lookupKV "id" td = some idv)
    (hsucc : jval_get (execF td) "success" = .ok succ) :
    (write_ok = true →
      process_task_file execF write_ok now fs path =
        { input := eraseKV path fs.input,
          output := upsertKV (pyStr idv ++ "_result.json")
              (result_envelope now td (execF td) idv succ) fs.output,
          processed := upsertKV path (some (.jobj td)) fs.processed }) ∧
    (write_ok = false →
      process_task_file execF write_ok now fs path = fs) ∧
    jlookup (result_envelope now td (execF td) idv succ) "status" =
      some (.jstr (if pyTruthy succ then "completed" else "failed")) := by
  have hdi : dict_get_item td "id" = .ok idv := by
    unfold dict_get_item
    rw [hid]
  refine ⟨?_, ?_, rfl⟩
  · intro hw
    subst hw
    simp only [process_task_file, hin, hval, save_task_result, hdi, hsucc, if_true,
      move_processed_file]
  · intro hw
    subst hw
    simp only [process_task_file, hin, hval, save_task_result, hdi, hsucc,
      Bool.false_eq_true, if_false]

/-- Witness for C5: the spec's example — `{id: "t1", task: "hello",
type: "general"}` in `input/t1.json` with a succeeding handler — ends with the
envelope in `output/t1_result.json` (status "completed"), `input/t1.json`
gone, and `processed/t1.json` present. -/
theorem process_task_file_wellformed_witness :
    process_task_file (fun _ => .jobj [("success", .jbool true)]) true "ts" wf_fs "t1.json" =
      { input := [],
        output := [("t1_result.json",
          result_envelope "ts" wf_task (.jobj [("success", .jbool true)])
            (.jstr "t1") (.jbool true))],
        processed := [("t1.json", some (.jobj wf_task))] } ∧
    jlookup (result_envelope "ts" wf_task (.jobj [("success", .jbool true)])
        (.jstr "t1") (.jbool true)) "status" = some (.jstr "completed") :=
  ⟨(process_task_file_wellformed (fun _ => .jobj [("success", .jbool true)]) true "ts"
      wf_fs "t1.json" wf_task (.jstr "t1") (.jbool true) rfl rfl rfl rfl).1 rfl,
   (process_task_file_wellformed (fun _ => .jobj [("success", .jbool true)]) true "ts"
      wf_fs "t1.json" wf_task (.jstr "t1") (.jbool true) rfl rfl rfl rfl).2.2⟩

end GeminiAgent
